import Mathlib

/-!
Shallow embedding of the Naath Archive comment subsystem (Express backend):
the comment routes (`backend/routes/comments.js`), the authentication and
ownership middleware (`backend/middleware/auth.js`), and the cascade
semantics of the PostgreSQL schema (`backend/database/init.sql`).

Database tables are lists of rows; each HTTP handler becomes a pure function
from the request and the current table state to a response and the next
state, following the source line by line.
-/

namespace NaathArchive

/-- User roles, from the `role` column check / Prisma `Role` enum:
admin, contributor, user. -/
inductive Role where
  | admin
  | contributor
  | user
deriving DecidableEq, Repr

/-- A row of the `users` table (the columns the middleware selects). -/
structure UserRow where
  id : Nat
  role : Role
  isActive : Bool
deriving DecidableEq, Repr

/-- Article status enum: draft, published, archived. -/
inductive ArticleStatus where
  | draft
  | published
  | archived
deriving DecidableEq, Repr

/-- A row of the `articles` table (the columns the comment routes touch). -/
structure ArticleRow where
  id : Nat
  status : ArticleStatus
deriving DecidableEq, Repr

/-- A row of the `comments` table. Timestamps are abstract ticks. -/
structure CommentRow where
  id : Nat
  content : String
  articleId : Nat
  userId : Nat
  parentId : Option Nat
  isApproved : Bool
  createdAt : Nat
  updatedAt : Nat
deriving DecidableEq, Repr

/-- A row of the `comment_likes` table (`UNIQUE(comment_id, user_id)`). -/
structure LikeRow where
  commentId : Nat
  userId : Nat
deriving DecidableEq, Repr

/-- The relational store: the tables the comment subsystem reads/writes. -/
structure State where
  users : List UserRow
  articles : List ArticleRow
  comments : List CommentRow
  likes : List LikeRow
deriving Repr

/-- An HTTP response as the comment routes shape it: a status code plus the
body fields the claims mention (`error` short code, `liked` flag from the
like toggle, `isApproved` from create/approve). -/
structure Resp where
  status : Nat
  error : Option String := none
  liked : Option Bool := none
  isApproved : Option Bool := none
deriving DecidableEq, Repr

/-! ## Authentication middleware (`backend/middleware/auth.js`) -/

/-- Outcome of `jwt.verify` on a presented bearer token: expired
(`TokenExpiredError`), any other verification error (malformed token or
invalid signature), or a decoded payload carrying `userId`. -/
inductive TokenState where
  | expired
  | invalid
  | valid (userId : Nat)
deriving DecidableEq, Repr

/-- `authenticateToken`: missing token → 401 "Access token required";
expired → 401 "Token expired"; any other verify error → 403 "Invalid
token"; then a lookup of the decoded user → 401 "User not found" when
absent, 401 "Account deactivated" when inactive, else success with the
loaded user attached to the request. -/
def authenticateToken (users : List UserRow) (token : Option TokenState) :
    Except Resp UserRow :=
  match token with
  | none => .error { status := 401, error := some "Access token required" }
  | some .expired => .error { status := 401, error := some "Token expired" }
  | some .invalid => .error { status := 403, error := some "Invalid token" }
  | some (.valid userId) =>
    match users.find? (fun u => u.id = userId) with
    | none => .error { status := 401, error := some "User not found" }
    | some u =>
      if ¬ u.isActive then
        .error { status := 401, error := some "Account deactivated" }
      else
        .ok u

/-- `requireOwnershipOrAdmin(resourceTable)` specialised to the `comments`
table: admins pass; otherwise the resource id must be present (else 400),
the row must exist (else 404), and its `user_id` must equal the actor's id
(else 403). Returns `some resp` when the middleware short-circuits. -/
def requireOwnershipOrAdmin (comments : List CommentRow) (actor : UserRow)
    (resourceId : Option Nat) : Option Resp :=
  if actor.role = Role.admin then
    none
  else
    match resourceId with
    | none => some { status := 400, error := some "Resource ID required" }
    | some rid =>
      match comments.find? (fun c => c.id = rid) with
      | none => some { status := 404, error := some "Resource not found" }
      | some c =>
        if c.userId ≠ actor.id then
          some { status := 403, error := some "Access denied" }
        else
          none

/-! ## Approve route (`PUT /api/comments/:id/approve`)

The route's middleware chain is `authenticateToken,
requireOwnershipOrAdmin('comments', 'id')`; the handler then runs
`UPDATE comments SET is_approved = true, updated_at = CURRENT_TIMESTAMP
WHERE id = $1 RETURNING id, is_approved` and answers 404 when no row
matched, else 200 with `isApproved`. -/

/-- The approve-comment operation after authentication: the
ownership-or-admin middleware, then the approval update. `now` is the
clock value `CURRENT_TIMESTAMP` evaluates to. -/
def approveComment (st : State) (actor : UserRow) (id : Nat) (now : Nat) :
    Resp × State :=
  match requireOwnershipOrAdmin st.comments actor (some id) with
  | some r => (r, st)
  | none =>
    if st.comments.any (fun c => c.id = id) then
      ({ status := 200, isApproved := some true },
       { st with comments := st.comments.map (fun c =>
           if c.id = id then { c with isApproved := true, updatedAt := now }
           else c) })
    else
      ({ status := 404, error := some "Comment not found" }, st)

/-! ## Create route (`POST /api/comments`)

Middleware: `authenticateToken`, then `body('content').trim().isLength({min:1,
max:1000})`. The handler checks the article is published, checks the parent
(same article, approved) when a `parentId` is supplied, then runs
`INSERT INTO comments (content, article_id, user_id, parent_id, is_approved)
VALUES (..., req.user.role === 'admin' ? true : false)` and answers 201 with
`isApproved: req.user.role === 'admin'`. -/

/-- express-validator's `trim()`: strip leading and trailing whitespace,
written over the character list. -/
def trimContent (s : String) : String :=
  ⟨((s.data.dropWhile Char.isWhitespace).reverse.dropWhile
      Char.isWhitespace).reverse⟩

/-- Content validation from the route: `trim()` then length between 1 and
1000 characters. -/
def contentValid (content : String) : Bool :=
  1 ≤ (trimContent content).length && (trimContent content).length ≤ 1000

/-- The create-comment operation after authentication. `newId` stands for
the `uuid_generate_v4()` primary-key default and `now` for
`CURRENT_TIMESTAMP`; an id collision violates the primary key, which the
route's catch-all turns into a 500. -/
def createComment (st : State) (actor : UserRow) (content : String)
    (articleId : Nat) (parentId : Option Nat) (newId now : Nat) :
    Resp × State :=
  if ¬ contentValid content then
    ({ status := 400, error := some "Validation failed" }, st)
  else if ¬ st.articles.any (fun a =>
      a.id = articleId && a.status = ArticleStatus.published) then
    ({ status := 404, error := some "Article not found" }, st)
  else if parentId.any (fun pid => ¬ st.comments.any (fun c =>
      c.id = pid && c.articleId = articleId && c.isApproved)) then
    ({ status := 404, error := some "Parent comment not found" }, st)
  else if st.comments.any (fun c => c.id = newId) then
    ({ status := 500, error := some "Failed to create comment" }, st)
  else
    ({ status := 201, isApproved := some (actor.role = Role.admin) },
     { st with comments := st.comments ++
         [{ id := newId, content := trimContent content, articleId := articleId,
            userId := actor.id, parentId := parentId,
            isApproved := actor.role = Role.admin,
            createdAt := now, updatedAt := now }] })

/-! ## Update route (`PUT /api/comments/:id`)

Middleware: `authenticateToken`, `requireOwnershipOrAdmin('comments')`,
content validation. The handler runs `UPDATE comments SET content = $1,
updated_at = CURRENT_TIMESTAMP WHERE id = $2 RETURNING ...` and answers 404
when no row matched, else 200. -/

/-- The update-comment operation after authentication. -/
def updateComment (st : State) (actor : UserRow) (id : Nat)
    (content : String) (now : Nat) : Resp × State :=
  match requireOwnershipOrAdmin st.comments actor (some id) with
  | some r => (r, st)
  | none =>
    if ¬ contentValid content then
      ({ status := 400, error := some "Validation failed" }, st)
    else if st.comments.any (fun c => c.id = id) then
      ({ status := 200 },
       { st with comments := st.comments.map (fun c =>
           if c.id = id then
             { c with content := trimContent content, updatedAt := now }
           else c) })
    else
      ({ status := 404, error := some "Comment not found" }, st)

/-! ## Delete route (`DELETE /api/comments/:id`) and cascade semantics

The handler runs `DELETE FROM comments WHERE id = $1 RETURNING id`; the
schema (`backend/database/init.sql`) declares
`comments.parent_id REFERENCES comments(id) ON DELETE CASCADE` and
`comment_likes.comment_id REFERENCES comments(id) ON DELETE CASCADE`, so
PostgreSQL recursively removes every comment whose parent chain reaches the
deleted row, together with all like rows of every removed comment. -/

/-- `reaches fuel cs c target` follows `c`'s parent chain through the
`comments` table and reports whether it passes through row id `target`.
Fuel bounds the chain length. -/
def reaches (comments : List CommentRow) : Nat → CommentRow → Nat → Bool
  | 0, _, _ => false
  | fuel + 1, c, target =>
    c.id = target ||
      match c.parentId with
      | none => false
      | some p =>
        match comments.find? (fun d => d.id = p) with
        | none => false
        | some d => reaches comments fuel d target

/-- `ON DELETE CASCADE` on a `DELETE FROM comments WHERE id = target`:
every comment whose parent chain reaches `target` is removed, and every
like row of a removed comment is removed. -/
def cascadeDelete (st : State) (target : Nat) : State :=
  let fuel := st.comments.length + 1
  let removed := st.comments.filter
    (fun c => reaches st.comments fuel c target)
  { st with
    comments := st.comments.filter
      (fun c => !(reaches st.comments fuel c target)),
    likes := st.likes.filter
      (fun l => !(removed.any (fun c => c.id = l.commentId))) }

/-- The delete-comment operation after authentication: the
ownership-or-admin middleware, then the cascading delete; 404 when the row
does not exist. -/
def deleteComment (st : State) (actor : UserRow) (id : Nat) : Resp × State :=
  match requireOwnershipOrAdmin st.comments actor (some id) with
  | some r => (r, st)
  | none =>
    if st.comments.any (fun c => c.id = id) then
      ({ status := 200 }, cascadeDelete st id)
    else
      ({ status := 404, error := some "Comment not found" }, st)

/-! ## Like route (`POST /api/comments/:id/like`)

Middleware: `authenticateToken`. The handler checks the comment exists and
is approved (404 otherwise), selects any existing like by this user, then
either deletes it (responding `liked: false`) or inserts a new row
(responding `liked: true`). A thrown persistence error — in particular a
`UNIQUE(comment_id, user_id)` violation when a concurrent toggle inserted
the row between the select and the insert — lands in the catch-all, which
responds 500 "Failed to toggle comment like". -/

/-- Whether a like row by `userId` on `commentId` is present. -/
def hasLike (likes : List LikeRow) (commentId userId : Nat) : Bool :=
  likes.any (fun l => l.commentId = commentId && l.userId = userId)

/-- The `INSERT INTO comment_likes` statement under the
`UNIQUE(comment_id, user_id)` constraint: fails when the row is already
present at insert time. -/
def insertLike (likes : List LikeRow) (commentId userId : Nat) :
    Except Unit (List LikeRow) :=
  if hasLike likes commentId userId then
    .error ()
  else
    .ok (likes ++ [{ commentId := commentId, userId := userId }])

/-- The toggle-like operation after authentication. `interfere` are like
rows committed by concurrent requests between this handler's existence
select and its write (empty in the sequential case): the select sees
`st.likes`, the write acts on `st.likes ++ interfere`. -/
def toggleLike (st : State) (actor : UserRow) (id : Nat)
    (interfere : List LikeRow) : Resp × State :=
  if ¬ st.comments.any (fun c => c.id = id && c.isApproved) then
    ({ status := 404, error := some "Comment not found" }, st)
  else
    let likesAtWrite := st.likes ++ interfere
    if hasLike st.likes id actor.id then
      ({ status := 200, liked := some false },
       { st with likes := likesAtWrite.filter (fun l =>
           !(l.commentId = id && l.userId = actor.id)) })
    else
      match insertLike likesAtWrite id actor.id with
      | .ok likes' => ({ status := 200, liked := some true },
                       { st with likes := likes' })
      | .error _ =>
        ({ status := 500, error := some "Failed to toggle comment like" },
         { st with likes := likesAtWrite })

/-! ## List route (`GET /api/comments/article/:articleId`)

Query validation: `page` ≥ 1, `limit` between 1 and 100, `sort` in
{newest, oldest, likes}. The handler 404s unless the article is published,
counts approved top-level comments, computes `totalPages =
Math.ceil(totalComments / limit)`, pages the sorted top-level comments with
`LIMIT $2 OFFSET $3` where `offset = (page - 1) * limit`, fetches each
page comment's approved replies `ORDER BY c.created_at ASC`, and returns
pagination flags `hasNextPage: page < totalPages`,
`hasPrevPage: page > 1`. -/

/-- The `sort` query parameter enum. -/
inductive SortOpt where
  | newest
  | oldest
  | likes
deriving DecidableEq, Repr

/-- `(SELECT COUNT(*) FROM comment_likes WHERE comment_id = ...)`. -/
def likesCount (likes : List LikeRow) (commentId : Nat) : Nat :=
  (likes.filter (fun l => l.commentId = commentId)).length

/-- The approved replies of a comment:
`WHERE c.parent_id = $1 AND c.is_approved = true`. -/
def repliesOf (comments : List CommentRow) (commentId : Nat) :
    List CommentRow :=
  comments.filter (fun c => c.parentId = some commentId && c.isApproved)

/-- `ORDER BY c.created_at ASC`, as a relation on comment rows. -/
def createdLe (a b : CommentRow) : Prop :=
  a.createdAt ≤ b.createdAt

instance : DecidableRel createdLe :=
  fun a b => Nat.decLe a.createdAt b.createdAt

instance : IsTotal CommentRow createdLe :=
  ⟨fun a b => Nat.le_total a.createdAt b.createdAt⟩

instance : IsTrans CommentRow createdLe :=
  ⟨fun _ _ _ h h' => Nat.le_trans h h'⟩

/-- Sorting the reply rows: `ORDER BY c.created_at ASC`. -/
def sortRepliesAsc (l : List CommentRow) : List CommentRow :=
  List.insertionSort createdLe l

/-- The `ORDER BY` clause for top-level comments, per the `sort`
parameter: newest (`created_at DESC`, the default), oldest
(`created_at ASC`), likes (`likes_count DESC, created_at DESC`). -/
def topLe (likes : List LikeRow) : SortOpt → CommentRow → CommentRow → Bool
  | .newest => fun a b => b.createdAt ≤ a.createdAt
  | .oldest => fun a b => a.createdAt ≤ b.createdAt
  | .likes => fun a b =>
      likesCount likes b.id < likesCount likes a.id ||
        (likesCount likes b.id = likesCount likes a.id &&
          b.createdAt ≤ a.createdAt)

/-- Sorting the top-level comment rows per the `sort` parameter. -/
def sortTop (likes : List LikeRow) (sort : SortOpt) (l : List CommentRow) :
    List CommentRow :=
  List.insertionSort (fun a b => topLe likes sort a b = true) l

/-- A reply as shaped in the list response. -/
structure ReplyView where
  id : Nat
  content : String
  createdAt : Nat
  updatedAt : Nat
  authorId : Nat
  likesCount : Nat
deriving DecidableEq, Repr

/-- A top-level comment as shaped in the list response. -/
structure CommentView where
  id : Nat
  content : String
  createdAt : Nat
  updatedAt : Nat
  authorId : Nat
  likesCount : Nat
  repliesCount : Nat
  replies : List ReplyView
deriving DecidableEq, Repr

/-- The `pagination` object of the list response. -/
structure Pagination where
  currentPage : Nat
  totalPages : Nat
  totalComments : Nat
  hasNextPage : Bool
  hasPrevPage : Bool
deriving DecidableEq, Repr

/-- The 200 body of the list route. -/
structure ListResult where
  comments : List CommentView
  pagination : Pagination
deriving Repr

/-- Shape a reply row into the response. -/
def toReplyView (likes : List LikeRow) (c : CommentRow) : ReplyView :=
  { id := c.id, content := c.content, createdAt := c.createdAt,
    updatedAt := c.updatedAt, authorId := c.userId,
    likesCount := likesCount likes c.id }

/-- The list-comments operation. -/
def listComments (st : State) (articleId page limit : Nat)
    (sort : SortOpt) : Except Resp ListResult :=
  if ¬ 1 ≤ page then
    .error { status := 400, error := some "Validation failed" }
  else if ¬ (1 ≤ limit ∧ limit ≤ 100) then
    .error { status := 400, error := some "Validation failed" }
  else if ¬ st.articles.any (fun a =>
      a.id = articleId && a.status = ArticleStatus.published) then
    .error { status := 404, error := some "Article not found" }
  else
    let offset := (page - 1) * limit
    let topLevel := st.comments.filter (fun c =>
      c.articleId = articleId && c.parentId = none && c.isApproved)
    let totalComments := topLevel.length
    let totalPages := (totalComments + limit - 1) / limit
    let pageRows := ((sortTop st.likes sort topLevel).drop offset).take limit
    .ok
      { comments := pageRows.map (fun c =>
          { id := c.id, content := c.content, createdAt := c.createdAt,
            updatedAt := c.updatedAt, authorId := c.userId,
            likesCount := likesCount st.likes c.id,
            repliesCount := (repliesOf st.comments c.id).length,
            replies := (sortRepliesAsc (repliesOf st.comments c.id)).map
              (toReplyView st.likes) }),
        pagination :=
          { currentPage := page, totalPages := totalPages,
            totalComments := totalComments,
            hasNextPage := decide (page < totalPages),
            hasPrevPage := decide (1 < page) } }

/-! ## The comment subsystem as a transition system

One step per route, for the temporal claims: each operation applied to the
store yields the next store (the list route reads only). -/

/-- An invocation of one comment-subsystem operation. -/
inductive Op where
  | create (actor : UserRow) (content : String) (articleId : Nat)
      (parentId : Option Nat) (newId now : Nat)
  | update (actor : UserRow) (id : Nat) (content : String) (now : Nat)
  | delete (actor : UserRow) (id : Nat)
  | like (actor : UserRow) (id : Nat)
  | approve (actor : UserRow) (id : Nat) (now : Nat)
  | list (articleId page limit : Nat) (sort : SortOpt)

/-- The store after one operation. -/
def applyOp (st : State) : Op → State
  | .create actor content articleId parentId newId now =>
    (createComment st actor content articleId parentId newId now).2
  | .update actor id content now => (updateComment st actor id content now).2
  | .delete actor id => (deleteComment st actor id).2
  | .like actor id => (toggleLike st actor id []).2
  | .approve actor id now => (approveComment st actor id now).2
  | .list _ _ _ _ => st

/-! ## Sample data for concrete evaluations -/

/-- A plain (non-admin) active user, id 2. -/
def sampleUser : UserRow := { id := 2, role := Role.user, isActive := true }

/-- An active admin, id 9. -/
def sampleAdmin : UserRow := { id := 9, role := Role.admin, isActive := true }

/-- A small store: one published article; comment 1 (approved, top-level,
owned by user 2), comment 2 (pending, top-level, owned by user 2),
comment 3 (approved reply to 1, by user 9); one like on comment 1. -/
def sampleState : State :=
  { users := [sampleUser, sampleAdmin],
    articles := [{ id := 10, status := ArticleStatus.published }],
    comments := [
      { id := 1, content := "hello", articleId := 10, userId := 2,
        parentId := none, isApproved := true, createdAt := 5, updatedAt := 5 },
      { id := 2, content := "pending", articleId := 10, userId := 2,
        parentId := none, isApproved := false, createdAt := 6, updatedAt := 6 },
      { id := 3, content := "reply", articleId := 10, userId := 9,
        parentId := some 1, isApproved := true, createdAt := 7, updatedAt := 7 }],
    likes := [{ commentId := 1, userId := 9 }] }

/-! ## Helper lemmas -/

/-- The ownership middleware never short-circuits with a 200: its responses
are 400, 403 or 404. -/
theorem requireOwnershipOrAdmin_ne_200 {comments : List CommentRow}
    {actor : UserRow} {rid : Option Nat} {r : Resp}
    (h : requireOwnershipOrAdmin comments actor rid = some r) :
    r.status ≠ 200 := by
  unfold requireOwnershipOrAdmin at h
  split at h
  · exact absurd h (by simp)
  · split at h
    · cases h
      decide
    · split at h
      · cases h
        decide
      · split at h
        · cases h
          decide
        · exact absurd h (by simp)

/-! ## Claim theorems -/

/-- C1: the approve route's middleware is `requireOwnershipOrAdmin`, not an
admin-role check, so a non-admin actor who owns the comment approves it:
at the sample store, user 2 (role `user`) approving their own pending
comment 2 gets HTTP 200 and the comment becomes approved — contradicting
the claim that every non-admin actor fails with a permission error and
leaves the approval state unchanged. -/
theorem c1_nonadmin_owner_approves :
    sampleUser.role ≠ Role.admin ∧
    (approveComment sampleState sampleUser 2 8).1.status = 200 ∧
    ((approveComment sampleState sampleUser 2 8).2.comments.find?
        (fun c => c.id = 2)).map (fun c => c.isApproved) = some true := by
  decide

/-- C2 counterexample: a token with an invalid signature (any `jwt.verify`
error other than expiry) is rejected by `authenticateToken` with HTTP 403
"Invalid token", not 401 as the claim states. -/
theorem c2_invalid_signature_403 :
    authenticateToken [] (some TokenState.invalid) =
      Except.error { status := 403, error := some "Invalid token" } := rfl

/-- C2 amended: only missing and expired tokens are rendered 401 at the
verification stage; malformed or invalid-signature tokens are rendered 403
"Invalid token". -/
theorem c2_amended_auth_statuses (users : List UserRow) :
    authenticateToken users none =
      Except.error { status := 401, error := some "Access token required" } ∧
    authenticateToken users (some TokenState.expired) =
      Except.error { status := 401, error := some "Token expired" } ∧
    authenticateToken users (some TokenState.invalid) =
      Except.error { status := 403, error := some "Invalid token" } :=
  ⟨rfl, rfl, rfl⟩

/-- C3: when the like-row insert hits the `UNIQUE(comment_id, user_id)`
constraint (a concurrent toggle committed the row between the handler's
existence select and its insert), the catch-all responds HTTP 500 "Failed
to toggle comment like" — not the idempotent success the claim states: at
the sample store, user 2 toggles approved comment 1, the select sees no
like, and the row {1, 2} committed concurrently makes the insert fail. -/
theorem c3_unique_violation_500 :
    hasLike sampleState.likes 1 sampleUser.id = false ∧
    (toggleLike sampleState sampleUser 1
        [{ commentId := 1, userId := 2 }]).1 =
      { status := 500, error := some "Failed to toggle comment like" } := by
  decide

/-- C4: after a successful delete (HTTP 200), the cascading delete leaves
no comment with the deleted id, no comment whose parent was the deleted
comment, and no like row referencing the deleted comment. -/
theorem c4_delete_cascades (st : State) (actor : UserRow) (id : Nat)
    (h : (deleteComment st actor id).1.status = 200) :
    (∀ c ∈ (deleteComment st actor id).2.comments,
        c.id ≠ id ∧ c.parentId ≠ some id) ∧
    (∀ l ∈ (deleteComment st actor id).2.likes, l.commentId ≠ id) := by
  revert h
  unfold deleteComment
  cases hm : requireOwnershipOrAdmin st.comments actor (some id) with
  | some r =>
    intro h
    exact absurd h (requireOwnershipOrAdmin_ne_200 hm)
  | none =>
    intro h
    by_cases hany : st.comments.any (fun c => c.id = id)
    case neg => simp [hany] at h
    simp only [hany, if_true, if_pos]
    obtain ⟨c₀, hc₀mem, hc₀id⟩ := List.any_eq_true.mp hany
    replace hc₀id : c₀.id = id := by simpa using hc₀id
    have hnonempty : st.comments ≠ [] := by
      intro hnil; rw [hnil] at hc₀mem; exact absurd hc₀mem (by simp)
    constructor
    · intro c hc
      simp only [cascadeDelete, List.mem_filter, Bool.not_eq_true'] at hc
      obtain ⟨hcmem, hreach⟩ := hc
      constructor
      · intro hcid
        simp [reaches, hcid] at hreach
      · intro hpar
        obtain ⟨m, hm'⟩ : ∃ m, st.comments.length = m + 1 := by
          cases hcs : st.comments with
          | nil => exact absurd hcs hnonempty
          | cons a l => exact ⟨l.length, by simp⟩
        have hfind : (st.comments.find? (fun d => d.id = id)).isSome := by
          rw [List.find?_isSome]
          exact ⟨c₀, hc₀mem, by simpa using hc₀id⟩
        obtain ⟨d, hd⟩ := Option.isSome_iff_exists.mp hfind
        have hdid : d.id = id := by simpa using List.find?_some hd
        simp only [reaches, hpar, hd] at hreach
        rw [hm'] at hreach
        simp [reaches, hdid] at hreach
    · intro l hl
      simp only [cascadeDelete, List.mem_filter, Bool.not_eq_true'] at hl
      obtain ⟨hlmem, hnone⟩ := hl
      intro hlid
      rw [List.any_eq_false] at hnone
      refine hnone c₀ ?_ ?_
      · rw [List.mem_filter]
        refine ⟨hc₀mem, ?_⟩
        simp [reaches, hc₀id]
      · simp [hc₀id, hlid]

/-- C4 witness: admin deletes comment 1 of the sample store; its reply 3
and the like on 1 are gone. -/
theorem c4_delete_cascades_witness :
    (∀ c ∈ (deleteComment sampleState sampleAdmin 1).2.comments,
        c.id ≠ 1 ∧ c.parentId ≠ some 1) ∧
    (∀ l ∈ (deleteComment sampleState sampleAdmin 1).2.likes,
        l.commentId ≠ 1) :=
  c4_delete_cascades sampleState sampleAdmin 1 (by decide)

/-- C5: whenever create-comment succeeds (HTTP 201), the response's
approval flag and the persisted row's approval flag both equal
`actor.role == admin`. -/
theorem c5_created_approval (st : State) (actor : UserRow) (content : String)
    (articleId : Nat) (parentId : Option Nat) (newId now : Nat)
    (h : (createComment st actor content articleId parentId
        newId now).1.status = 201) :
    (createComment st actor content articleId parentId newId now).1.isApproved
        = some (decide (actor.role = Role.admin)) ∧
    ((createComment st actor content articleId parentId
          newId now).2.comments.getLast?).map (fun c => c.isApproved)
        = some (decide (actor.role = Role.admin)) := by
  revert h
  unfold createComment
  split_ifs with h1 h2 h3 h4 <;> intro h
  all_goals try exact ⟨rfl, by simp [List.getLast?_concat]⟩
  all_goals simp at h

/-- C5 witness: the non-admin user 2 creating a comment on the published
article of the sample store gets approval flag `false` twice over. -/
theorem c5_created_approval_witness :
    (createComment sampleState sampleUser " hi " 10 none 4 9).1.isApproved
        = some (decide (sampleUser.role = Role.admin)) ∧
    ((createComment sampleState sampleUser " hi " 10 none
          4 9).2.comments.getLast?).map (fun c => c.isApproved)
        = some (decide (sampleUser.role = Role.admin)) :=
  c5_created_approval sampleState sampleUser " hi " 10 none 4 9 (by decide)

/-- With a positive page size, `page < Math.ceil(total / limit)` says
exactly that the pages so far do not exhaust the total. -/
theorem lt_ceilDiv_iff_mul_lt {page limit total : Nat} (hL : 1 ≤ limit) :
    page < (total + limit - 1) / limit ↔ page * limit < total := by
  rw [Nat.lt_iff_add_one_le, Nat.le_div_iff_mul_le hL, add_mul, one_mul]
  have hx : ∃ x, page * limit = x := ⟨page * limit, rfl⟩
  obtain ⟨x, hxeq⟩ := hx
  rw [hxeq]
  omega

/-- C6: in every 200 list response, `hasNextPage` (computed as
`page < Math.ceil(totalComments / limit)`) is true exactly when
`page * limit < totalComments`, and `totalComments` is the number of
approved top-level comments of the article. -/
theorem c6_pagination (st : State) (articleId page limit : Nat)
    (sort : SortOpt) (r : ListResult)
    (h : listComments st articleId page limit sort = Except.ok r) :
    (r.pagination.hasNextPage = true ↔
        page * limit < r.pagination.totalComments) ∧
    r.pagination.totalComments = (st.comments.filter (fun c =>
        c.articleId = articleId && c.parentId = none &&
          c.isApproved)).length := by
  revert h
  unfold listComments
  split_ifs with h1 h2 h3 <;> intro h
  all_goals try exact h.elim
  simp only [Except.ok.injEq] at h
  subst h
  refine ⟨?_, rfl⟩
  have hL : 1 ≤ limit := by omega
  simpa using lt_ceilDiv_iff_mul_lt hL

/-- C6 witness: page 1, limit 20 on the sample store (one approved
top-level comment, no next page). -/
theorem c6_pagination_witness :
    ∃ r, listComments sampleState 10 1 20 SortOpt.newest = Except.ok r ∧
      ((r.pagination.hasNextPage = true ↔
          1 * 20 < r.pagination.totalComments) ∧
        r.pagination.totalComments = (sampleState.comments.filter (fun c =>
          c.articleId = 10 && c.parentId = none && c.isApproved)).length) :=
  ⟨_, rfl, c6_pagination sampleState 10 1 20 SortOpt.newest _ rfl⟩

/-- One sequential toggle on an existing approved comment: the reported
flag and the stored row both flip, and the comments table is untouched. -/
theorem toggleLike_once (st : State) (actor : UserRow) (id : Nat)
    (h : st.comments.any (fun c => c.id = id && c.isApproved) = true) :
    (toggleLike st actor id []).1.liked =
        some (!hasLike st.likes id actor.id) ∧
    hasLike (toggleLike st actor id []).2.likes id actor.id =
        !hasLike st.likes id actor.id ∧
    (toggleLike st actor id []).2.comments = st.comments := by
  unfold toggleLike
  rw [if_neg (not_not_intro h)]
  by_cases hl : hasLike st.likes id actor.id = true
  · rw [if_pos hl, hl]
    refine ⟨rfl, ?_, rfl⟩
    simp [hasLike, List.any_eq_true, List.mem_filter]
    tauto
  · rw [if_neg hl]
    replace hl : hasLike st.likes id actor.id = false :=
      Bool.eq_false_iff.mpr hl
    have hins : insertLike (st.likes ++ []) id actor.id =
        Except.ok (st.likes ++ [{ commentId := id, userId := actor.id }]) := by
      unfold insertLike
      rw [List.append_nil, hl]
      simp
    rw [List.append_nil] at hins ⊢
    rw [hins, hl]
    refine ⟨rfl, ?_, rfl⟩
    simp [hasLike]

/-- C7: a sequential toggle on an existing approved comment reports
`liked = !previous`, flips the stored like row, and a second toggle
restores the original like state. -/
theorem c7_toggle_flip (st : State) (actor : UserRow) (id : Nat)
    (h : st.comments.any (fun c => c.id = id && c.isApproved) = true) :
    (toggleLike st actor id []).1.liked =
        some (!hasLike st.likes id actor.id) ∧
    hasLike (toggleLike st actor id []).2.likes id actor.id =
        !hasLike st.likes id actor.id ∧
    hasLike (toggleLike (toggleLike st actor id []).2 actor id []).2.likes
        id actor.id = hasLike st.likes id actor.id := by
  obtain ⟨h1, h2, h3⟩ := toggleLike_once st actor id h
  have h' : (toggleLike st actor id []).2.comments.any
      (fun c => c.id = id && c.isApproved) = true := by rw [h3]; exact h
  obtain ⟨_, h2', _⟩ := toggleLike_once (toggleLike st actor id []).2 actor id h'
  exact ⟨h1, h2, by rw [h2', h2, Bool.not_not]⟩

/-- C7 witness: user 2 double-toggles approved comment 1 of the sample
store. -/
theorem c7_toggle_flip_witness :
    (toggleLike sampleState sampleUser 1 []).1.liked =
        some (!hasLike sampleState.likes 1 sampleUser.id) ∧
    hasLike (toggleLike sampleState sampleUser 1 []).2.likes 1 sampleUser.id =
        !hasLike sampleState.likes 1 sampleUser.id ∧
    hasLike (toggleLike (toggleLike sampleState sampleUser 1 []).2
          sampleUser 1 []).2.likes 1 sampleUser.id =
        hasLike sampleState.likes 1 sampleUser.id :=
  c7_toggle_flip sampleState sampleUser 1 (by decide)

/-- C8: approval is one-directional: if every comment with a given id is
approved, then after any single operation of the subsystem every comment
with that id is still approved — no operation transitions approved back to
pending. -/
theorem c8_approved_stable (st : State) (op : Op) (id : Nat)
    (hex : ∃ c ∈ st.comments, c.id = id)
    (happ : ∀ c ∈ st.comments, c.id = id → c.isApproved = true) :
    ∀ c ∈ (applyOp st op).comments, c.id = id → c.isApproved = true := by
  cases op with
  | create actor content articleId parentId newId now =>
    dsimp only [applyOp]
    unfold createComment
    split_ifs with h1 h2 h3 h4
    all_goals try exact happ
    intro c hc hcid
    rcases List.mem_append.mp hc with hmem | hnew
    · exact happ c hmem hcid
    · exfalso
      simp only [List.mem_singleton] at hnew
      subst hnew
      simp only at hcid
      obtain ⟨c₀, hc₀mem, hc₀id⟩ := hex
      exact h4 (List.any_eq_true.mpr ⟨c₀, hc₀mem, by simp [hc₀id, hcid]⟩)
  | update actor uid content now =>
    dsimp only [applyOp]
    unfold updateComment
    split
    · exact happ
    · split_ifs with h1 h2
      all_goals try exact happ
      intro c hc hcid
      obtain ⟨d, hdmem, rfl⟩ := List.mem_map.mp hc
      revert hcid
      split <;> intro hcid <;> exact happ d hdmem hcid
  | delete actor did =>
    dsimp only [applyOp]
    unfold deleteComment
    split
    · exact happ
    · split_ifs with h1
      · intro c hc hcid
        exact happ c (List.mem_of_mem_filter hc) hcid
      · exact happ
  | like actor lid =>
    dsimp only [applyOp]
    unfold toggleLike
    split_ifs with h1 h2
    all_goals try exact happ
    simp only [insertLike]
    split_ifs <;> exact happ
  | approve actor aid now =>
    dsimp only [applyOp]
    unfold approveComment
    split
    · exact happ
    · split_ifs with h1
      · intro c hc hcid
        obtain ⟨d, hdmem, rfl⟩ := List.mem_map.mp hc
        revert hcid
        split <;> intro hcid
        · rfl
        · exact happ d hdmem hcid
      · exact happ
  | list articleId page limit sort => exact happ

/-- C8 witness: updating approved comment 1 of the sample store leaves it
approved. -/
theorem c8_approved_stable_witness :
    ((applyOp sampleState (Op.update sampleUser 1 "edited" 9)).comments.find?
        (fun c => c.id = 1)).map (fun c => c.isApproved) = some true := by
  have h := c8_approved_stable sampleState (Op.update sampleUser 1 "edited" 9)
    1 (by decide) (by decide)
  cases hf : (applyOp sampleState
      (Op.update sampleUser 1 "edited" 9)).comments.find? (fun c => c.id = 1)
    with
  | none => exact absurd hf (by decide)
  | some c =>
    have hmem := List.mem_of_find?_eq_some hf
    have hid : c.id = 1 := by simpa using List.find?_some hf
    simp [h c hmem hid]

/-- C9: a successful update (HTTP 200) leaves users, articles and like
rows untouched, and every comment keeps its id, article, author, parent,
approval flag and creation time; comments other than the target are
entirely unchanged (only the target's content and updated-at move). -/
theorem c9_update_frame (st : State) (actor : UserRow) (id : Nat)
    (content : String) (now : Nat)
    (h : (updateComment st actor id content now).1.status = 200) :
    (updateComment st actor id content now).2.users = st.users ∧
    (updateComment st actor id content now).2.articles = st.articles ∧
    (updateComment st actor id content now).2.likes = st.likes ∧
    ∀ c' ∈ (updateComment st actor id content now).2.comments,
      ∃ c ∈ st.comments, c'.id = c.id ∧ c'.articleId = c.articleId ∧
        c'.userId = c.userId ∧ c'.parentId = c.parentId ∧
        c'.isApproved = c.isApproved ∧ c'.createdAt = c.createdAt ∧
        (c.id ≠ id → c' = c) := by
  revert h
  unfold updateComment
  cases hm : requireOwnershipOrAdmin st.comments actor (some id) with
  | some r =>
    intro h
    exact absurd h (requireOwnershipOrAdmin_ne_200 hm)
  | none =>
    split_ifs with h1 h2 <;> intro h
    all_goals try simp at h
    refine ⟨rfl, rfl, rfl, ?_⟩
    intro c' hc'
    obtain ⟨d, hdmem, rfl⟩ := List.mem_map.mp hc'
    refine ⟨d, hdmem, ?_⟩
    by_cases hd : d.id = id
    · rw [if_pos hd]
      exact ⟨rfl, rfl, rfl, rfl, rfl, rfl, fun hne => absurd hd hne⟩
    · rw [if_neg hd]
      exact ⟨rfl, rfl, rfl, rfl, rfl, rfl, fun _ => rfl⟩

/-- C9 witness: user 2 updates their comment 1 of the sample store. -/
theorem c9_update_frame_witness :
    (updateComment sampleState sampleUser 1 "edited" 9).2.users =
        sampleState.users ∧
    (updateComment sampleState sampleUser 1 "edited" 9).2.articles =
        sampleState.articles ∧
    (updateComment sampleState sampleUser 1 "edited" 9).2.likes =
        sampleState.likes ∧
    ∀ c' ∈ (updateComment sampleState sampleUser 1 "edited" 9).2.comments,
      ∃ c ∈ sampleState.comments, c'.id = c.id ∧ c'.articleId = c.articleId ∧
        c'.userId = c.userId ∧ c'.parentId = c.parentId ∧
        c'.isApproved = c.isApproved ∧ c'.createdAt = c.createdAt ∧
        (c.id ≠ 1 → c' = c) :=
  c9_update_frame sampleState sampleUser 1 "edited" 9 (by decide)

/-- C10: in every 200 list response, whatever the sort parameter, each
top-level comment's replies are ordered oldest-first (ascending
created-at): the reply query always orders by `created_at ASC`. -/
theorem c10_replies_sorted (st : State) (articleId page limit : Nat)
    (sort : SortOpt) (r : ListResult)
    (h : listComments st articleId page limit sort = Except.ok r) :
    ∀ cv ∈ r.comments,
      List.Pairwise (fun a b => a.createdAt ≤ b.createdAt) cv.replies := by
  revert h
  unfold listComments
  split_ifs with h1 h2 h3 <;> intro h
  all_goals try exact h.elim
  simp only [Except.ok.injEq] at h
  subst h
  intro cv hcv
  obtain ⟨c, hcmem, rfl⟩ := List.mem_map.mp hcv
  exact List.Pairwise.map (toReplyView st.likes) (fun a b hab => hab)
    (List.sorted_insertionSort createdLe (repliesOf st.comments c.id))

/-- C10 witness: listing the sample store with the likes sort still
yields ascending replies. -/
theorem c10_replies_sorted_witness :
    ∃ r, listComments sampleState 10 1 20 SortOpt.likes = Except.ok r ∧
      ∀ cv ∈ r.comments,
        List.Pairwise (fun a b => a.createdAt ≤ b.createdAt) cv.replies :=
  ⟨_, rfl, c10_replies_sorted sampleState 10 1 20 SortOpt.likes _ rfl⟩

end NaathArchive
